import Mathlib

/-!
Verification development for the accounting_bot repository.

The Python sources (`utils.py`, `database.py`, `webhook_receiver.py`,
`telegram_bot.py`) are shallowly embedded below: pure helpers become Lean
functions, the SQLite tables become a `DbState` record threaded through the
operations, and each webhook/callback handler becomes a function from the
current state (plus the incoming event) to the next state, an effect trace,
and the outcome the surrounding code observes (processed or raised).
External collaborators (the chat transport, the datetime-parsing library,
the HTTP server) are abstracted at their call boundary, as in the spec.
-/

namespace AccountingBot

/-!
## Datetime strings (utils.py)

`utils.parse_datetime` delegates to an external library (`dateutil`, with a
`datetime.fromisoformat` fallback).  We abstract a datetime string by the
outcome that parsing pipeline would produce on it: the empty string (falsy in
the source's truthiness checks), a non-empty string both parsers reject, or a
string denoting a definite instant, represented by its epoch second.
-/

inductive DTString where
  | empty : DTString
  | unparseable : DTString
  | parsed (epochSeconds : Int) : DTString
deriving DecidableEq, Repr

/-- Python truthiness of an optional datetime string: `None` and `""` are falsy. -/
def pyTruthyDT : Option DTString → Bool
  | none => false
  | some DTString.empty => false
  | some _ => true

/-- Model of `utils.parse_datetime`: `None` on falsy input, the parsed instant
otherwise, `None` when both underlying library calls fail. -/
def parse_datetime : Option DTString → Option Int
  | none => none
  | some DTString.empty => none
  | some DTString.unparseable => none
  | some (DTString.parsed t) => some t

/-- Model of `utils.calculate_days_difference`: `None` when either argument is
falsy or unparseable, otherwise `(dt2 - dt1).days`.  Python's `timedelta.days`
is the floor of the duration in days, hence `Int.fdiv`. -/
def calculate_days_difference (date1 date2 : Option DTString) : Option Int :=
  if pyTruthyDT date1 = false ∨ pyTruthyDT date2 = false then none
  else
    match parse_datetime date1, parse_datetime date2 with
    | some t1, some t2 => some ((t2 - t1).fdiv 86400)
    | _, _ => none

/-- Model of `utils.generate_event_key`: an `action_username_sendAt` string. -/
def generate_event_key (action : String) (username : String) (send_at : Int) : String :=
  action ++ "_" ++ username ++ "_" ++ toString send_at

/-!
## Python `int()` on strings (used by `database.get_settlement_total`)

`int(s)` strips ASCII whitespace, accepts one optional sign, then decimal
digits with single underscores allowed only between digits.
-/

def isPySpace (c : Char) : Bool :=
  c = ' ' ∨ c = '\t' ∨ c = '\n' ∨ c = '\r' ∨ c = '\x0b' ∨ c = '\x0c'

def stripPySpaces (cs : List Char) : List Char :=
  ((cs.dropWhile isPySpace).reverse.dropWhile isPySpace).reverse

def digitVal (c : Char) : Nat := c.toNat - 48

def digitsCore : List Char → Nat → Option Nat
  | [], acc => some acc
  | '_' :: [], _ => none
  | '_' :: c :: rest, acc =>
      if c.isDigit then digitsCore rest (acc * 10 + digitVal c) else none
  | c :: rest, acc =>
      if c.isDigit then digitsCore rest (acc * 10 + digitVal c) else none

def digitsStart : List Char → Option Nat
  | [] => none
  | c :: rest => if c.isDigit then digitsCore rest (digitVal c) else none

/-- Model of Python `int(s)` for a string: `none` models a raised `ValueError`. -/
def pyToInt (s : String) : Option Int :=
  match stripPySpaces s.data with
  | '+' :: rest => (digitsStart rest).map Int.ofNat
  | '-' :: rest => (digitsStart rest).map (fun n => -(Int.ofNat n))
  | rest => (digitsStart rest).map Int.ofNat

/-!
## Callback token encoding (utils.py)
-/

/-- Model of `utils.create_callback_data`: join with colons, truncate to 64. -/
def create_callback_data (action_type username admin_telegram_id event_key : String) : String :=
  let callback := action_type ++ ":" ++ username ++ ":" ++ admin_telegram_id ++ ":" ++ event_key
  if callback.length > 64 then callback.take 64 else callback

/-- Split a character list at its first colon, returning the pieces before and
after it, or `none` when the list has no colon. -/
def breakAtColon : List Char → Option (List Char × List Char)
  | [] => none
  | c :: cs =>
      if c = ':' then some ([], cs)
      else (breakAtColon cs).map (fun p => (c :: p.1, p.2))

/-- Model of Python `s.split(sep, maxsplit)` for a single-character separator
`:`: split at most `n` times, the remainder (colons included) becoming the
last field. -/
def pySplitColon : List Char → Nat → List String
  | cs, 0 => [String.mk cs]
  | cs, Nat.succ n =>
      match breakAtColon cs with
      | none => [String.mk cs]
      | some (before, after) => String.mk before :: pySplitColon after n

structure CallbackParts where
  action_type : String
  username : String
  admin_telegram_id : String
  event_key : String
deriving DecidableEq, Repr

/-- Model of `utils.parse_callback_data`: `callback_data.split(chr, 3)` must
yield exactly 4 parts, otherwise a `ValueError` is raised (modelled as
`Except.error`). -/
def parse_callback_data (callback_data : String) : Except String CallbackParts :=
  match pySplitColon callback_data.data 3 with
  | [a, b, c, d] => Except.ok { action_type := a, username := b, admin_telegram_id := c, event_key := d }
  | _ => Except.error "Invalid callback data format"

/-!
## The state store (database.py)

Each SQLite table becomes a field of `DbState`.  Tables keyed by a TEXT
primary key become association lists (the `INSERT OR REPLACE` writes replace
the entry for the key); `settlement_list`, keyed by an AUTOINCREMENT
surrogate, becomes a plain list of rows plus the next fresh id.  Timestamps
(`datetime.now(timezone.utc)`) are supplied by an explicit `now : Int`
argument (epoch seconds).
-/

structure SnapshotRow where
  status : String
  expire : Option DTString
  updated_at : Int
deriving DecidableEq, Repr

structure PaymentRow where
  payment_status : String
  price : Option String
  last_set_by : String
  last_set_at : Int
deriving DecidableEq, Repr

structure UserPriceRow where
  price : String
  set_by : String
  set_at : Int
deriving DecidableEq, Repr

structure SettlementRow where
  id : Nat
  username : String
  admin_telegram_id : String
  price : Option String
  added_by : String
  added_at : Int
  is_checked_out : Bool
  checked_out_at : Option Int
  checked_out_by : Option String
deriving DecidableEq, Repr

structure AuditRow where
  log_type : String
  username : Option String
  admin_telegram_id : Option String
  actor_telegram_id : Option String
  created_at : Int
deriving DecidableEq, Repr

structure DbState where
  users_snapshot : List (String × SnapshotRow)
  payments : List (String × PaymentRow)
  user_prices : List (String × UserPriceRow)
  settlement_list : List SettlementRow
  settlement_next_id : Nat
  audit_log : List AuditRow
  sync_status : List (String × String)
deriving DecidableEq, Repr

/-- The freshly initialised database: empty tables, AUTOINCREMENT at 1. -/
def initialDb : DbState :=
  { users_snapshot := [], payments := [], user_prices := [], settlement_list := [],
    settlement_next_id := 1, audit_log := [], sync_status := [] }

/-- Replace the entry for `key` in an association list, appending when absent
(`INSERT OR REPLACE` on a TEXT primary key). -/
def assocReplace : List (String × α) → String → α → List (String × α)
  | [], key, v => [(key, v)]
  | p :: l, key, v => if p.1 == key then (key, v) :: l else p :: assocReplace l key v

def assocFind (l : List (String × α)) (key : String) : Option α :=
  (l.find? (fun p => p.1 == key)).map (fun p => p.2)

/-- Model of `Database.get_user_snapshot`. -/
def get_user_snapshot (db : DbState) (username : String) : Option SnapshotRow :=
  assocFind db.users_snapshot username

/-- Model of `Database.save_user_snapshot`.  The `users_snapshot.status`
column is declared `TEXT NOT NULL`, so writing a `None` status raises an
`IntegrityError`; that failure is the `Except.error` branch. -/
def save_user_snapshot (db : DbState) (now : Int) (username : String)
    (status : Option String) (expire : Option DTString) : Except String DbState :=
  match status with
  | none => Except.error "NOT NULL constraint failed: users_snapshot.status"
  | some st =>
      let row : SnapshotRow := { status := st, expire := expire, updated_at := now }
      Except.ok { db with users_snapshot := assocReplace db.users_snapshot username row }

/-- Model of `Database.get_sync_status`. -/
def get_sync_status (db : DbState) (key : String) : Option String :=
  assocFind db.sync_status key

/-- Model of `Database.set_sync_status`. -/
def set_sync_status (db : DbState) (key value : String) : DbState :=
  { db with sync_status := assocReplace db.sync_status key value }

/-- Model of `Database.log_audit`: an append-only insert into `audit_log`. -/
def log_audit (db : DbState) (now : Int) (log_type : String) (username : Option String)
    (admin_telegram_id : Option String) (actor_telegram_id : Option String) : DbState :=
  { db with audit_log := db.audit_log ++
      [{ log_type := log_type, username := username, admin_telegram_id := admin_telegram_id,
         actor_telegram_id := actor_telegram_id, created_at := now }] }

/-- Model of `Database.get_payment_status`. -/
def get_payment_status (db : DbState) (username : String) : Option PaymentRow :=
  assocFind db.payments username

/-- Model of `Database.set_payment_status`: `INSERT OR REPLACE` that names only
`(username, payment_status, last_set_by, last_set_at)`, so the `price` column
of a replaced row reverts to its NULL default. -/
def set_payment_status (db : DbState) (now : Int) (username status set_by : String) : DbState :=
  let row : PaymentRow := { payment_status := status, price := none, last_set_by := set_by, last_set_at := now }
  { db with payments := assocReplace db.payments username row }

/-- Model of `Database.dismiss_payment`: an unconditional `INSERT OR REPLACE`
with status `Dismissed`. -/
def dismiss_payment (db : DbState) (now : Int) (username dismissed_by : String) : DbState :=
  let row : PaymentRow := { payment_status := "Dismissed", price := none, last_set_by := dismissed_by, last_set_at := now }
  { db with payments := assocReplace db.payments username row }

/-- Row predicate for the `WHERE username = ? AND admin_telegram_id = ? AND
is_checked_out = 0` clauses of `database.py`. -/
def activeRowB (username admin_telegram_id : String) (r : SettlementRow) : Bool :=
  r.username == username && r.admin_telegram_id == admin_telegram_id && r.is_checked_out == false

/-- Model of `Database.add_to_settlement`: if an active row for the pair
exists, update its price/added_by/added_at in place (by id); otherwise insert
a fresh active row. -/
def add_to_settlement (db : DbState) (now : Int) (username admin_telegram_id : String)
    (price : Option String) (added_by : String) : DbState :=
  match db.settlement_list.find? (activeRowB username admin_telegram_id) with
  | some existing =>
      { db with settlement_list := db.settlement_list.map (fun r =>
          if r.id = existing.id then { r with price := price, added_by := added_by, added_at := now }
          else r) }
  | none =>
      { db with
        settlement_list := db.settlement_list ++
          [{ id := db.settlement_next_id, username := username,
             admin_telegram_id := admin_telegram_id, price := price, added_by := added_by,
             added_at := now, is_checked_out := false, checked_out_at := none,
             checked_out_by := none }],
        settlement_next_id := db.settlement_next_id + 1 }

/-- Model of `Database.checkout_settlement`: flip every active row of the
admin to checked-out with one stamp, returning the affected row count. -/
def checkout_settlement (db : DbState) (now : Int) (admin_telegram_id checked_out_by : String) :
    DbState × Nat :=
  let n := db.settlement_list.countP
    (fun r => r.admin_telegram_id == admin_telegram_id && r.is_checked_out == false)
  ({ db with settlement_list := db.settlement_list.map (fun r =>
      if r.admin_telegram_id == admin_telegram_id && r.is_checked_out == false then
        { r with is_checked_out := true, checked_out_at := some now,
                 checked_out_by := some checked_out_by }
      else r) }, n)

structure SettlementTotals where
  total : Int
  count : Nat
  items_with_price : Nat
  items_without_price : Nat
deriving DecidableEq, Repr

/-- The `COALESCE(s.price, p.price, chr(48))` of the settlement-total query:
the row price, else the user price from the LEFT JOIN, else the string "0". -/
def coalescedPrice (db : DbState) (r : SettlementRow) : String :=
  match r.price with
  | some p => p
  | none =>
      match assocFind db.user_prices r.username with
      | some pr => pr.price
      | none => "0"

/-- The `price = int(row) if row else 0` of the settlement-total loop: an
empty (falsy) string is 0, and a `ValueError` from `int()` is `none` (it
lands in the except branch). -/
def stringPriceParse (priceStr : String) : Option Int :=
  if priceStr = "" then some 0 else pyToInt priceStr

/-- The per-row accumulation step of `Database.get_settlement_total`. -/
def settlementStep (acc : SettlementTotals) (priceStr : String) : SettlementTotals :=
  match stringPriceParse priceStr with
  | some price =>
      if price > 0 then
        { acc with total := acc.total + price, items_with_price := acc.items_with_price + 1 }
      else
        { acc with items_without_price := acc.items_without_price + 1 }
  | none => { acc with items_without_price := acc.items_without_price + 1 }

/-- Model of `Database.get_settlement_total`: fold the accumulation step over
the coalesced prices of the admin's active settlement rows. -/
def get_settlement_total (db : DbState) (admin_telegram_id : String) : SettlementTotals :=
  let rows := db.settlement_list.filter
    (fun r => r.admin_telegram_id == admin_telegram_id && r.is_checked_out == false)
  let prices := rows.map (coalescedPrice db)
  prices.foldl settlementStep
    { total := 0, count := rows.length, items_with_price := 0, items_without_price := 0 }

/-!
## Webhook events and the triage pipeline (webhook_receiver.py)

An incoming JSON event is modelled by the fields the receiver reads.  `user`
is `none` when the key is absent or the dict is empty (both falsy under the
source's `not user_data` check); `action` and `username` keep `Option String`
with the empty string also falsy.  The actor's `telegram_id` is an integer or
null in the panel's payloads.
-/

structure UserBody where
  status : Option String
  expire : Option DTString
  /-- The value of `user.get('data_limit', 0)`: `some n` is a number (an
  absent key yields the default `some 0`), `none` is an explicit JSON null,
  which the created-message template later compares against 0. -/
  data_limit : Option Int := some 0
deriving DecidableEq, Repr

structure ActorBody where
  telegram_id : Option Nat
  username : Option String
deriving DecidableEq, Repr

structure Event where
  action : Option String
  username : Option String
  user : Option UserBody
  actor : ActorBody
  send_at : Int
deriving DecidableEq, Repr

/-- Python truthiness of an optional string: `None` and `""` are falsy. -/
def pyTruthyStr : Option String → Bool
  | none => false
  | some s => !(s == "")

/-- Python truthiness of the actor's telegram id (`None` and `0` are falsy). -/
def pyTruthyTid : Option Nat → Bool
  | none => false
  | some n => !(n == 0)

/-- The `if not action or not username or not user_data` validation of
`process_webhook_event`. -/
def validEventB (e : Event) : Bool :=
  pyTruthyStr e.action && pyTruthyStr e.username && !(e.user == none)

/-- One observable step of processing, in program order: the audit insert, the
sync-flag read, snapshot reads/writes, and the calls into
`send_to_admin_topic` (the chat-transport boundary, which swallows its own
failures). -/
inductive Effect where
  | auditAppend (log_type : String) (username : Option String)
  | syncStatusRead (key : String)
  | snapshotRead (username : String)
  | snapshotWrite (username : String)
  | sendCreated (admin_telegram_id : Nat) (username : String) (event_key : String)
  | sendUpdated (admin_telegram_id : Nat) (username : String) (event_key : String)
      (trigger_reason : String)
deriving DecidableEq, Repr

def Effect.isSend : Effect → Bool
  | Effect.sendCreated _ _ _ => true
  | Effect.sendUpdated _ _ _ _ => true
  | _ => false

/-- Outcome of processing one event: the database afterwards, the ordered
effect trace, whether control returned normally (`ok = false` models a raised
exception, caught by the batch loop), and — for `user_updated` events that
reached the trigger evaluation — the `(should_send, trigger_reason)` pair the
handler computed. -/
structure ProcResult where
  db : DbState
  trace : List Effect
  ok : Bool
  decision : Option (Bool × String)
deriving DecidableEq, Repr

/-- The trigger evaluation of `handle_user_updated` (webhook_receiver.py,
lines 179-199): condition A (expire extended by at least 7 days) assigns the
`expire_extended_<N>_days` reason, then condition B (status newly `on_hold`)
is evaluated and, when it holds, overwrites both flags. -/
def updateDecision (old_snapshot : SnapshotRow) (user_data : UserBody) : Bool × String :=
  let old_expire := old_snapshot.expire
  let new_expire := user_data.expire
  let afterA : Bool × String :=
    if pyTruthyDT old_expire && pyTruthyDT new_expire then
      match calculate_days_difference old_expire new_expire with
      | some days_diff =>
          if days_diff ≠ 0 ∧ days_diff ≥ 7 then
            (true, "expire_extended_" ++ toString days_diff ++ "_days")
          else (false, "")
      | none => (false, "")
    else (false, "")
  let old_status := old_snapshot.status
  let new_status := user_data.status
  if old_status ≠ "on_hold" ∧ new_status = some "on_hold" then (true, "status_to_on_hold")
  else afterA

/-- The data the `create_user_created_message` template renders; the prose
itself is outside the hard contract. -/
structure CreatedMessageData where
  username : String
  user_status : Option String
  expire : Option DTString
  data_limit : Int
  admin_username : Option String
  send_at : Int
deriving DecidableEq, Repr

/-- Model of `create_user_created_message`: pure formatting except for the
data-limit line, whose `data_limit > 0` comparison raises `TypeError` when
the event carries an explicit null `data_limit`.  (The `send_at` conversion
assumes a timestamp within the datetime-representable range, as every
panel-emitted timestamp is; `create_user_updated_message` makes no fallible
comparison at all, so it is not modelled.) -/
def create_user_created_message (e : Event) : Except String CreatedMessageData :=
  let username := e.username.getD ""
  let user_data := e.user.getD { status := none, expire := none }
  match user_data.data_limit with
  | none => Except.error "TypeError: NoneType is not comparable with int"
  | some n =>
      Except.ok { username := username, user_status := user_data.status,
                  expire := user_data.expire, data_limit := n,
                  admin_username := e.actor.username, send_at := e.send_at }

/-- Model of `handle_user_created`: save the snapshot (the write raises when
the event carries no status), build the message (which raises on an explicit
null data limit, after the snapshot is already written), and send to the
admin topic only when the actor's telegram id is truthy. -/
def handle_user_created (db : DbState) (now : Int) (e : Event) : ProcResult :=
  let username := e.username.getD ""
  let user_data := e.user.getD { status := none, expire := none }
  match save_user_snapshot db now username user_data.status user_data.expire with
  | Except.error _ => { db := db, trace := [], ok := false, decision := none }
  | Except.ok db1 =>
      match create_user_created_message e with
      | Except.error _ =>
          { db := db1, trace := [Effect.snapshotWrite username], ok := false, decision := none }
      | Except.ok _ =>
          let event_key := generate_event_key "created" username e.send_at
          let sends : List Effect :=
            match e.actor.telegram_id with
            | some tid =>
                if pyTruthyTid (some tid) then [Effect.sendCreated tid username event_key] else []
            | none => []
          { db := db1, trace := Effect.snapshotWrite username :: sends, ok := true,
            decision := none }

/-- Model of `handle_user_updated`: read the old snapshot; with no baseline,
save and skip; otherwise evaluate the triggers, always overwrite the
snapshot, and send only when a trigger fired and the actor's telegram id is
truthy. -/
def handle_user_updated (db : DbState) (now : Int) (e : Event) : ProcResult :=
  let username := e.username.getD ""
  let user_data := e.user.getD { status := none, expire := none }
  match get_user_snapshot db username with
  | none =>
      match save_user_snapshot db now username user_data.status user_data.expire with
      | Except.error _ =>
          { db := db, trace := [Effect.snapshotRead username], ok := false, decision := none }
      | Except.ok db1 =>
          { db := db1, trace := [Effect.snapshotRead username, Effect.snapshotWrite username],
            ok := true, decision := none }
  | some old_snapshot =>
      let d := updateDecision old_snapshot user_data
      match save_user_snapshot db now username user_data.status user_data.expire with
      | Except.error _ =>
          { db := db, trace := [Effect.snapshotRead username], ok := false, decision := some d }
      | Except.ok db1 =>
          let event_key := generate_event_key "updated" username e.send_at
          let sends : List Effect :=
            if d.1 then
              match e.actor.telegram_id with
              | some tid =>
                  if pyTruthyTid (some tid) then [Effect.sendUpdated tid username event_key d.2]
                  else []
              | none => []
            else []
          { db := db1,
            trace := Effect.snapshotRead username :: Effect.snapshotWrite username :: sends,
            ok := true, decision := some d }

/-- The tail of `process_webhook_event` after the audit insert: consult the
sync gate, then dispatch on the action. -/
def triage_after_audit (db1 : DbState) (now : Int) (e : Event) : ProcResult :=
  let sync := get_sync_status db1 "initial_sync_complete"
  let tr0 : List Effect := [Effect.syncStatusRead "initial_sync_complete"]
  if sync ≠ some "true" ∧ e.action = some "user_updated" then
    { db := db1, trace := tr0, ok := true, decision := none }
  else if e.action = some "user_created" then
    let r := handle_user_created db1 now e
    { r with trace := tr0 ++ r.trace }
  else if e.action = some "user_updated" then
    let r := handle_user_updated db1 now e
    { r with trace := tr0 ++ r.trace }
  else
    { db := db1, trace := tr0, ok := true, decision := none }

/-- Model of `process_webhook_event`: validate, then audit, then triage. -/
def process_webhook_event (db : DbState) (now : Int) (e : Event) : ProcResult :=
  if !(validEventB e) then
    { db := db, trace := [], ok := true, decision := none }
  else
    let db1 := log_audit db now "webhook_received" e.username (e.actor.telegram_id.map toString) none
    let r := triage_after_audit db1 now e
    { r with trace := Effect.auditAppend "webhook_received" e.username :: r.trace }

structure WebhookResponse where
  processed : Nat
  total : Nat
deriving DecidableEq, Repr

/-- One iteration of the batch loop of `receive_webhook`: process the event
against the threaded state; an event that raises is logged and skipped, one
that returns normally increments `processed_count`. -/
def loopStep (now : Int) (acc : DbState × Nat) (e : Event) : DbState × Nat :=
  let r := process_webhook_event acc.1 now e
  (r.db, if r.ok then acc.2 + 1 else acc.2)

/-- The per-event batch loop of `receive_webhook`. -/
def processEventsLoop (db : DbState) (now : Int) (events : List Event) : DbState × Nat :=
  events.foldl (loopStep now) (db, 0)

/-- Model of the `POST /webhook` endpoint after a successful body parse: the
HTTP 200 body reports the loop's count and the batch length. -/
def receive_webhook (db : DbState) (now : Int) (events : List Event) :
    DbState × WebhookResponse :=
  let r := processEventsLoop db now events
  (r.1, { processed := r.2, total := events.length })

/-!
## Interactive action dispatcher (telegram_bot.py)

`handle_accounting_callback` decodes the button token, dispatches on the
action type, then appends a `callback_<actionType>` audit entry; its
surrounding try/except converts any raised error into a "Processing error"
acknowledgement.  Message-edit failures inside the handlers are caught in the
source and only change the acknowledgement text, so the transport is not
modelled beyond the acknowledgement.
-/

inductive CbAnswer where
  | alreadyMarked (status : String)
  | marked (status : String)
  | addedToSettlement
  | processingError
  | silent
deriving DecidableEq, Repr

/-- Model of `handle_payment_status`: when the stored status already equals
the target, acknowledge "Already marked" and return without writing;
otherwise overwrite the payment row. -/
def handle_payment_status (db : DbState) (now : Int) (username status clicker_id : String) :
    DbState × CbAnswer :=
  match get_payment_status db username with
  | some current_payment =>
      if current_payment.payment_status = status then (db, CbAnswer.alreadyMarked status)
      else (set_payment_status db now username status clicker_id, CbAnswer.marked status)
  | none => (set_payment_status db now username status clicker_id, CbAnswer.marked status)

/-- Model of `handle_add_settlement`.  Its first statement is
`await self.db.add_to_settlement(username, clicker_id)`, but
`Database.add_to_settlement` requires four positional arguments
`(username, admin_telegram_id, price, added_by)`; the two-argument call
raises `TypeError` before any database access, so the handler is modelled as
that raise. -/
def handle_add_settlement (db : DbState) (now : Int) (username clicker_id : String) :
    Except String (DbState × CbAnswer) :=
  Except.error "TypeError: add_to_settlement missing 2 required positional arguments"

/-- Model of `handle_accounting_callback`: decode the token, dispatch, append
the `callback_<actionType>` audit entry, with the enclosing try/except
turning any raise into a "Processing error" acknowledgement with no audit. -/
def handle_accounting_callback (db : DbState) (now : Int) (cb_data : String)
    (clicker_id : String) : DbState × CbAnswer :=
  match parse_callback_data cb_data with
  | Except.error _ => (db, CbAnswer.processingError)
  | Except.ok cd =>
      let step : Except String (DbState × CbAnswer) :=
        if cd.action_type = "paid" then
          Except.ok (handle_payment_status db now cd.username "Paid" clicker_id)
        else if cd.action_type = "unpaid" then
          Except.ok (handle_payment_status db now cd.username "Unpaid" clicker_id)
        else if cd.action_type = "add_settlement" then
          handle_add_settlement db now cd.username clicker_id
        else Except.ok (db, CbAnswer.silent)
      match step with
      | Except.error _ => (db, CbAnswer.processingError)
      | Except.ok (db1, ans) =>
          (log_audit db1 now ("callback_" ++ cd.action_type) (some cd.username)
            (some cd.admin_telegram_id) (some clicker_id), ans)

/-!
## Settlement operation sequences (for the active-entry invariant)
-/

inductive SettlementOp where
  | add (username admin_telegram_id : String) (price : Option String) (added_by : String)
      (now : Int)
  | checkout (admin_telegram_id checked_out_by : String) (now : Int)
deriving DecidableEq, Repr

def applySettlementOp (db : DbState) : SettlementOp → DbState
  | SettlementOp.add u a p b t => add_to_settlement db t u a p b
  | SettlementOp.checkout a b t => (checkout_settlement db t a b).1

def applySettlementOps (db : DbState) (ops : List SettlementOp) : DbState :=
  ops.foldl applySettlementOp db

/-- The settlement-store invariant: at most one active entry per
(username, adminId) pair. -/
def atMostOneActive (l : List SettlementRow) : Prop :=
  ∀ u a : String, l.countP (activeRowB u a) ≤ 1

/-!
## Helper lemmas
-/

lemma parse_datetime_some {o : Option DTString} {t : Int}
    (h : parse_datetime o = some t) : o = some (DTString.parsed t) := by
  match o with
  | none => simp [parse_datetime] at h
  | some DTString.empty => simp [parse_datetime] at h
  | some DTString.unparseable => simp [parse_datetime] at h
  | some (DTString.parsed s) =>
      simp [parse_datetime] at h
      rw [h]

lemma assocFind_assocReplace (l : List (String × α)) (k : String) (v : α) :
    assocFind (assocReplace l k v) k = some v := by
  induction l with
  | nil => simp [assocReplace, assocFind, List.find?]
  | cons p l ih =>
      by_cases hp : p.1 == k
      · simp [assocReplace, hp, assocFind, List.find?]
      · simp only [assocReplace, hp, if_false, Bool.false_eq_true]
        simpa [assocFind, List.find?, hp] using ih

/-!
## Claim C1
-/

/-- Claim C1, counterexample: a `user_updated` diff where both triggers fire
independently (expire extended by 10 days, status newly `on_hold`).  The
triage decision carries reason `status_to_on_hold`, not the expire-extension
reason the claim asserts: condition B is evaluated second and overwrites the
reason. -/
theorem updateDecision_both_fire_counterexample :
    calculate_days_difference (some (DTString.parsed 0)) (some (DTString.parsed 864000)) = some 10
    ∧ ("active" : String) ≠ "on_hold"
    ∧ updateDecision
        { status := "active", expire := some (DTString.parsed 0), updated_at := 0 }
        { status := some "on_hold", expire := some (DTString.parsed 864000) } =
        (true, "status_to_on_hold")
    ∧ (updateDecision
        { status := "active", expire := some (DTString.parsed 0), updated_at := 0 }
        { status := some "on_hold", expire := some (DTString.parsed 864000) }).2 ≠
        "expire_extended_10_days" := by
  refine ⟨by decide, by decide, by decide, by decide⟩

/-- Claim C1, amended: when both the expire-extension trigger and the
hold trigger fire independently, the decision is send=true with reason
`status_to_on_hold` — the hold trigger is evaluated second and its reason
overwrites the extension reason. -/
theorem updateDecision_hold_reason_wins (old : SnapshotRow) (u : UserBody) (t1 t2 : Int)
    (ht1 : parse_datetime old.expire = some t1) (ht2 : parse_datetime u.expire = some t2)
    (h7 : (t2 - t1).fdiv 86400 ≥ 7)
    (hold : old.status ≠ "on_hold") (hnew : u.status = some "on_hold") :
    updateDecision old u = (true, "status_to_on_hold") := by
  unfold updateDecision
  rw [if_pos ⟨hold, hnew⟩]

/-- Claim C1, witness for the amended theorem. -/
theorem updateDecision_hold_reason_wins_witness :
    updateDecision
      { status := "disabled", expire := some (DTString.parsed 86400), updated_at := 3 }
      { status := some "on_hold", expire := some (DTString.parsed 1123200) } =
      (true, "status_to_on_hold") :=
  updateDecision_hold_reason_wins
    { status := "disabled", expire := some (DTString.parsed 86400), updated_at := 3 }
    { status := some "on_hold", expire := some (DTString.parsed 1123200) }
    86400 1123200 (by decide) (by decide) (by decide) (by decide) (by decide)

/-!
## Claim C7
-/

/-- Claim C7, counterexample: with both expires parseable and the floored
difference at 14 days, but the status also moving to `on_hold`, the decision
reason is `status_to_on_hold`, not `expire_extended_14_days` — so the claim
as stated (reason is always the extension reason whenever the extension
condition holds) fails. -/
theorem expire_extension_overridden_counterexample :
    calculate_days_difference (some (DTString.parsed 100)) (some (DTString.parsed 1209700)) =
      some 14
    ∧ updateDecision
        { status := "limited", expire := some (DTString.parsed 100), updated_at := 0 }
        { status := some "on_hold", expire := some (DTString.parsed 1209700) } =
        (true, "status_to_on_hold")
    ∧ (updateDecision
        { status := "limited", expire := some (DTString.parsed 100), updated_at := 0 }
        { status := some "on_hold", expire := some (DTString.parsed 1209700) }).2 ≠
        "expire_extended_14_days" := by
  refine ⟨by decide, by decide, by decide⟩

/-- Claim C7, amended: when both expires parse and the floored day difference
is at least 7, the decision is send=true with reason
`expire_extended_<N>_days` for the floored count N, provided the hold trigger
does not also fire (in which case its reason wins); and when either expire is
missing or unparseable the extension trigger does not fire — the decision is
exactly what the hold trigger alone yields. -/
theorem expire_extension_trigger_amended (old : SnapshotRow) (u : UserBody) :
    (∀ t1 t2 : Int, parse_datetime old.expire = some t1 → parse_datetime u.expire = some t2 →
      (t2 - t1).fdiv 86400 ≥ 7 →
      ¬(old.status ≠ "on_hold" ∧ u.status = some "on_hold") →
      updateDecision old u =
        (true, "expire_extended_" ++ toString ((t2 - t1).fdiv 86400) ++ "_days"))
    ∧ (calculate_days_difference old.expire u.expire = none →
      updateDecision old u =
        if old.status ≠ "on_hold" ∧ u.status = some "on_hold" then (true, "status_to_on_hold")
        else (false, "")) := by
  constructor
  · intro t1 t2 ht1 ht2 h7 hnb
    have ho := parse_datetime_some ht1
    have hn := parse_datetime_some ht2
    have hnz : (t2 - t1).fdiv 86400 ≠ 0 := by omega
    unfold updateDecision
    rw [if_neg hnb]
    rw [ho, hn]
    simp only [pyTruthyDT, Bool.and_self, if_true]
    rw [show calculate_days_difference (some (DTString.parsed t1)) (some (DTString.parsed t2)) =
          some ((t2 - t1).fdiv 86400) by simp [calculate_days_difference, pyTruthyDT, parse_datetime]]
    exact if_pos ⟨hnz, h7⟩
  · intro hnone
    unfold updateDecision
    by_cases hb : old.status ≠ "on_hold" ∧ u.status = some "on_hold"
    · rw [if_pos hb, if_pos hb]
    · rw [if_neg hb, if_neg hb]
      by_cases htr : pyTruthyDT old.expire && pyTruthyDT u.expire
      · rw [if_pos htr, hnone]
      · rw [if_neg htr]

/-- Claim C7, witness for the amended theorem: the firing half at a concrete
9-day extension without a hold transition, and the non-firing half at an
unparseable new expire. -/
theorem expire_extension_trigger_amended_witness :
    updateDecision
      { status := "active", expire := some (DTString.parsed 0), updated_at := 0 }
      { status := some "active", expire := some (DTString.parsed 777600) } =
      (true, "expire_extended_9_days")
    ∧ updateDecision
      { status := "active", expire := some (DTString.parsed 0), updated_at := 0 }
      { status := some "active", expire := some DTString.unparseable } =
      (if ("active" : String) ≠ "on_hold" ∧ (some "active" : Option String) = some "on_hold" then
        (true, "status_to_on_hold") else (false, "")) := by
  constructor
  · exact (expire_extension_trigger_amended
      { status := "active", expire := some (DTString.parsed 0), updated_at := 0 }
      { status := some "active", expire := some (DTString.parsed 777600) }).1
      0 777600 (by decide) (by decide) (by decide) (by decide)
  · exact (expire_extension_trigger_amended
      { status := "active", expire := some (DTString.parsed 0), updated_at := 0 }
      { status := some "active", expire := some DTString.unparseable }).2 (by decide)

/-!
## Claim C5
-/

/-- Claim C5, counterexample: a payment record already `Dismissed` is not
left unchanged by a second `dismiss` — `dismiss_payment` overwrites the
actor and timestamp unconditionally, with no "already marked" check, so the
claimed no-op guarantee fails for the dismiss transition. -/
theorem dismiss_overwrites_counterexample :
    get_payment_status
      { initialDb with payments :=
          [("u", { payment_status := "Dismissed", price := none, last_set_by := "a", last_set_at := 0 })] }
      "u" = some { payment_status := "Dismissed", price := none, last_set_by := "a", last_set_at := 0 }
    ∧ get_payment_status
        (dismiss_payment
          { initialDb with payments :=
              [("u", { payment_status := "Dismissed", price := none, last_set_by := "a", last_set_at := 0 })] }
          5 "u" "b")
        "u" = some { payment_status := "Dismissed", price := none, last_set_by := "b", last_set_at := 5 }
    ∧ ({ payment_status := "Dismissed", price := none, last_set_by := "b", last_set_at := 5 } : PaymentRow) ≠
        { payment_status := "Dismissed", price := none, last_set_by := "a", last_set_at := 0 } := by
  refine ⟨by decide, by decide, by decide⟩

/-- Claim C5, amended: re-applying the same target status is a no-op that
reports "already marked" for the `markPaid` and `markUnpaid` transitions
(`handle_payment_status` checks the stored status first), but NOT for
`dismiss`: `dismiss_payment` overwrites the record unconditionally, updating
the actor and timestamp with no already-marked check. -/
theorem payment_status_idempotence_amended (db : DbState) (now : Int)
    (username clicker st : String) (hst : st = "Paid" ∨ st = "Unpaid")
    (h : (get_payment_status db username).map (fun p => p.payment_status) = some st) :
    handle_payment_status db now username st clicker = (db, CbAnswer.alreadyMarked st)
    ∧ (∀ b : String, get_payment_status (dismiss_payment db now username b) username =
        some { payment_status := "Dismissed", price := none, last_set_by := b, last_set_at := now }) := by
  constructor
  · match hg : get_payment_status db username with
    | none => rw [hg] at h; simp at h
    | some p =>
        rw [hg] at h
        simp only [Option.map_some', Option.some.injEq] at h
        unfold handle_payment_status
        rw [hg]
        exact if_pos h
  · intro b
    unfold dismiss_payment get_payment_status
    exact assocFind_assocReplace db.payments username _

/-- Claim C5, witness for the amended theorem. -/
theorem payment_status_idempotence_amended_witness :
    handle_payment_status
      { initialDb with payments :=
          [("w", { payment_status := "Paid", price := none, last_set_by := "x", last_set_at := 1 })] }
      9 "w" "Paid" "y" =
      ({ initialDb with payments :=
          [("w", { payment_status := "Paid", price := none, last_set_by := "x", last_set_at := 1 })] },
       CbAnswer.alreadyMarked "Paid")
    ∧ (∀ b : String, get_payment_status
        (dismiss_payment
          { initialDb with payments :=
              [("w", { payment_status := "Paid", price := none, last_set_by := "x", last_set_at := 1 })] }
          9 "w" b) "w" =
        some { payment_status := "Dismissed", price := none, last_set_by := b, last_set_at := 9 }) :=
  payment_status_idempotence_amended
    { initialDb with payments :=
        [("w", { payment_status := "Paid", price := none, last_set_by := "x", last_set_at := 1 })] }
    9 "w" "y" "Paid" (Or.inl rfl) (by decide)

/-!
## Claim C2
-/

/-- Claim C2: evaluating the dispatcher at a well-formed `add_settlement`
token.  The token decodes, but the dispatch raises (the source calls
`add_to_settlement` with two of its four required positional arguments, a
`TypeError`), so the actor gets "Processing error", no settlement entry is
created, and no `callback_add_settlement` audit entry is appended — the
exact opposite of the claimed outcome. -/
theorem add_settlement_callback_raises :
    parse_callback_data "add_settlement:alice:42:k1" =
      Except.ok { action_type := "add_settlement", username := "alice",
                  admin_telegram_id := "42", event_key := "k1" }
    ∧ handle_accounting_callback initialDb 0 "add_settlement:alice:42:k1" "999" =
        (initialDb, CbAnswer.processingError)
    ∧ (handle_accounting_callback initialDb 0 "add_settlement:alice:42:k1" "999").1.settlement_list
        = []
    ∧ (handle_accounting_callback initialDb 0 "add_settlement:alice:42:k1" "999").1.audit_log
        = [] :=
  ⟨rfl, rfl, rfl, rfl⟩

/-!
## Structural lemmas about the triage pipeline
-/

lemma handle_user_created_audit_log (db : DbState) (now : Int) (e : Event) :
    (handle_user_created db now e).db.audit_log = db.audit_log := by
  simp only [handle_user_created, save_user_snapshot, create_user_created_message]
  cases (e.user.getD { status := none, expire := none }).status <;>
    cases (e.user.getD { status := none, expire := none }).data_limit <;> rfl

lemma handle_user_updated_audit_log (db : DbState) (now : Int) (e : Event) :
    (handle_user_updated db now e).db.audit_log = db.audit_log := by
  simp only [handle_user_updated, save_user_snapshot]
  cases get_user_snapshot db (e.username.getD "") <;>
    cases (e.user.getD { status := none, expire := none }).status <;> rfl

lemma triage_after_audit_audit_log (db1 : DbState) (now : Int) (e : Event) :
    (triage_after_audit db1 now e).db.audit_log = db1.audit_log := by
  simp only [triage_after_audit]
  by_cases h1 : get_sync_status db1 "initial_sync_complete" ≠ some "true" ∧
      e.action = some "user_updated"
  · rw [if_pos h1]
  · rw [if_neg h1]
    by_cases h2 : e.action = some "user_created"
    · rw [if_pos h2]
      exact handle_user_created_audit_log db1 now e
    · rw [if_neg h2]
      by_cases h3 : e.action = some "user_updated"
      · rw [if_pos h3]
        exact handle_user_updated_audit_log db1 now e
      · rw [if_neg h3]

lemma triage_after_audit_trace_head (db1 : DbState) (now : Int) (e : Event) :
    ∃ rest : List Effect, (triage_after_audit db1 now e).trace =
      Effect.syncStatusRead "initial_sync_complete" :: rest := by
  simp only [triage_after_audit]
  by_cases h1 : get_sync_status db1 "initial_sync_complete" ≠ some "true" ∧
      e.action = some "user_updated"
  · rw [if_pos h1]
    exact ⟨[], rfl⟩
  · rw [if_neg h1]
    by_cases h2 : e.action = some "user_created"
    · rw [if_pos h2]
      exact ⟨(handle_user_created db1 now e).trace, rfl⟩
    · rw [if_neg h2]
      by_cases h3 : e.action = some "user_updated"
      · rw [if_pos h3]
        exact ⟨(handle_user_updated db1 now e).trace, rfl⟩
      · rw [if_neg h3]
        exact ⟨[], rfl⟩

/-!
## Claim C3
-/

/-- Claim C3, counterexample: an event with no `username` fails the field
validation, which in the source runs BEFORE the audit insert — the event is
dropped with no `webhook_received` audit entry at all, so the claim that
every event (valid or invalid) is audited first fails. -/
theorem invalid_event_no_audit_counterexample :
    validEventB
      { action := some "user_updated", username := none,
        user := some { status := some "active", expire := none },
        actor := { telegram_id := some 1, username := some "adm" }, send_at := 0 } = false
    ∧ process_webhook_event initialDb 0
        { action := some "user_updated", username := none,
          user := some { status := some "active", expire := none },
          actor := { telegram_id := some 1, username := some "adm" }, send_at := 0 } =
        { db := initialDb, trace := [], ok := true, decision := none } := by
  exact ⟨by decide, by decide⟩

/-- Claim C3, amended: every event that passes the field validation (action,
username and user body present) gets a `webhook_received` audit entry
appended, and that append happens before any triage step — the gate read,
snapshot reads/writes and send decisions all come after it in the effect
trace; an event failing validation is dropped with no audit entry and no
further processing. -/
theorem webhook_audit_first_amended (db : DbState) (now : Int) (e : Event)
    (h : validEventB e = true) :
    (process_webhook_event db now e).db.audit_log =
      db.audit_log ++
        [{ log_type := "webhook_received", username := e.username,
           admin_telegram_id := e.actor.telegram_id.map toString, actor_telegram_id := none,
           created_at := now }]
    ∧ (∃ rest : List Effect, (process_webhook_event db now e).trace =
        Effect.auditAppend "webhook_received" e.username ::
        Effect.syncStatusRead "initial_sync_complete" :: rest) := by
  unfold process_webhook_event
  rw [h]
  simp only [Bool.not_true, Bool.false_eq_true, if_false]
  constructor
  · rw [triage_after_audit_audit_log]
    rfl
  · obtain ⟨rest, hr⟩ := triage_after_audit_trace_head
      (log_audit db now "webhook_received" e.username (e.actor.telegram_id.map toString) none)
      now e
    exact ⟨rest, by rw [hr]⟩

/-- Claim C3, witness for the amended theorem. -/
theorem webhook_audit_first_amended_witness :
    (process_webhook_event initialDb 7
      { action := some "user_created", username := some "alice",
        user := some { status := some "active", expire := none },
        actor := { telegram_id := some 5, username := some "adm" }, send_at := 1 }).db.audit_log =
      initialDb.audit_log ++
        [{ log_type := "webhook_received", username := some "alice",
           admin_telegram_id := some "5", actor_telegram_id := none, created_at := 7 }]
    ∧ (∃ rest : List Effect, (process_webhook_event initialDb 7
        { action := some "user_created", username := some "alice",
          user := some { status := some "active", expire := none },
          actor := { telegram_id := some 5, username := some "adm" }, send_at := 1 }).trace =
        Effect.auditAppend "webhook_received" (some "alice") ::
        Effect.syncStatusRead "initial_sync_complete" :: rest) :=
  webhook_audit_first_amended initialDb 7
    { action := some "user_created", username := some "alice",
      user := some { status := some "active", expire := none },
      actor := { telegram_id := some 5, username := some "adm" }, send_at := 1 }
    (by decide)

/-!
## Claim C4
-/

lemma loopStep_acc (now : Int) (events : List Event) (db : DbState) (n : Nat) :
    (events.foldl (loopStep now) (db, n)).2 = n + (processEventsLoop db now events).2 := by
  induction events generalizing db n with
  | nil => simp [processEventsLoop]
  | cons e es ih =>
      simp only [processEventsLoop, List.foldl_cons, loopStep]
      rw [ih, ih]
      by_cases hok : (process_webhook_event db now e).ok = true
      · simp only [hok, if_true]
        omega
      · simp only [hok, Bool.false_eq_true, if_false]
        omega

/-- Claim C4, counterexample: a three-event batch whose middle event has no
`username` reports `processed=3, total=3`, not the claimed `processed=2` —
the missing-field rejection returns normally from `process_webhook_event`, so
the batch loop still counts it. -/
theorem batch_counts_invalid_counterexample :
    validEventB
      { action := some "user_created", username := some "alice",
        user := some { status := some "active", expire := none },
        actor := { telegram_id := some 5, username := some "adm" }, send_at := 1 } = true
    ∧ validEventB
        { action := some "user_created", username := none,
          user := some { status := some "active", expire := none },
          actor := { telegram_id := some 5, username := some "adm" }, send_at := 2 } = false
    ∧ validEventB
        { action := some "user_created", username := some "bob",
          user := some { status := some "active", expire := none },
          actor := { telegram_id := some 5, username := some "adm" }, send_at := 3 } = true
    ∧ (receive_webhook initialDb 0
        [{ action := some "user_created", username := some "alice",
           user := some { status := some "active", expire := none },
           actor := { telegram_id := some 5, username := some "adm" }, send_at := 1 },
         { action := some "user_created", username := none,
           user := some { status := some "active", expire := none },
           actor := { telegram_id := some 5, username := some "adm" }, send_at := 2 },
         { action := some "user_created", username := some "bob",
           user := some { status := some "active", expire := none },
           actor := { telegram_id := some 5, username := some "adm" }, send_at := 3 }]).2 =
        { processed := 3, total := 3 }
    ∧ ({ processed := 3, total := 3 } : WebhookResponse) ≠ { processed := 2, total := 3 } := by
  refine ⟨by decide, by decide, by decide, by decide, by decide⟩

/-- Claim C4, amended: an event rejected for missing required fields returns
normally, touches nothing, and is therefore still counted in `processed`;
`total` is the batch length; and the batch always continues past each event,
`processed` accumulating exactly the events whose processing returned
normally.  (Only an event whose processing raises — e.g. a failed store
write — is excluded from the count.) -/
theorem processed_count_amended :
    (∀ (db : DbState) (now : Int) (e : Event), validEventB e = false →
      process_webhook_event db now e = { db := db, trace := [], ok := true, decision := none })
    ∧ (∀ (db : DbState) (now : Int) (events : List Event),
        (receive_webhook db now events).2.total = events.length)
    ∧ (∀ (db : DbState) (now : Int) (e : Event) (events : List Event),
        (processEventsLoop db now (e :: events)).2 =
          (if (process_webhook_event db now e).ok then 1 else 0) +
          (processEventsLoop (process_webhook_event db now e).db now events).2) := by
  refine ⟨?_, ?_, ?_⟩
  · intro db now e hinv
    unfold process_webhook_event
    rw [hinv]
    rfl
  · intro db now events
    rfl
  · intro db now e events
    simp only [processEventsLoop, List.foldl_cons, loopStep]
    by_cases hok : (process_webhook_event db now e).ok
    · simp only [hok, if_true]
      rw [loopStep_acc]
      rfl
    · simp only [hok, if_false]
      rw [loopStep_acc]
      rfl

/-- Claim C4, witness for the amended theorem. -/
theorem processed_count_amended_witness :
    process_webhook_event initialDb 0
      { action := some "user_created", username := none,
        user := some { status := some "active", expire := none },
        actor := { telegram_id := some 5, username := some "adm" }, send_at := 2 } =
      { db := initialDb, trace := [], ok := true, decision := none } :=
  processed_count_amended.1 initialDb 0
    { action := some "user_created", username := none,
      user := some { status := some "active", expire := none },
      actor := { telegram_id := some 5, username := some "adm" }, send_at := 2 }
    (by decide)

/-!
## Claim C10
-/

lemma handle_user_created_snapshot (db : DbState) (now : Int) (e : Event) :
    (handle_user_created db now e).db.users_snapshot =
      match (e.user.getD { status := none, expire := none }).status with
      | none => db.users_snapshot
      | some s => assocReplace db.users_snapshot (e.username.getD "")
          { status := s, expire := (e.user.getD { status := none, expire := none }).expire,
            updated_at := now } := by
  simp only [handle_user_created, save_user_snapshot, create_user_created_message]
  cases hst : (e.user.getD { status := none, expire := none }).status <;>
    cases hdl : (e.user.getD { status := none, expire := none }).data_limit <;> rfl

lemma handle_user_updated_snapshot (db : DbState) (now : Int) (e : Event) :
    (handle_user_updated db now e).db.users_snapshot =
      match (e.user.getD { status := none, expire := none }).status with
      | none => db.users_snapshot
      | some s => assocReplace db.users_snapshot (e.username.getD "")
          { status := s, expire := (e.user.getD { status := none, expire := none }).expire,
            updated_at := now } := by
  simp only [handle_user_updated, save_user_snapshot]
  cases get_user_snapshot db (e.username.getD "") <;>
    cases hst : (e.user.getD { status := none, expire := none }).status <;> rfl

lemma handle_user_created_ok (db : DbState) (now : Int) (e : Event) :
    (handle_user_created db now e).ok =
      (((e.user.getD { status := none, expire := none }).status).isSome &&
        ((e.user.getD { status := none, expire := none }).data_limit).isSome) := by
  simp only [handle_user_created, save_user_snapshot, create_user_created_message]
  cases hst : (e.user.getD { status := none, expire := none }).status <;>
    cases hdl : (e.user.getD { status := none, expire := none }).data_limit <;> rfl

lemma handle_user_updated_ok (db : DbState) (now : Int) (e : Event) :
    (handle_user_updated db now e).ok =
      ((e.user.getD { status := none, expire := none }).status).isSome := by
  simp only [handle_user_updated, save_user_snapshot]
  cases get_user_snapshot db (e.username.getD "") <;>
    cases hst : (e.user.getD { status := none, expire := none }).status <;> rfl

lemma handle_user_created_no_send (db : DbState) (now : Int) (e : Event)
    (h : e.actor.telegram_id = none) :
    ∀ eff ∈ (handle_user_created db now e).trace, eff.isSend = false := by
  simp only [handle_user_created, save_user_snapshot, create_user_created_message, h]
  cases hst : (e.user.getD { status := none, expire := none }).status <;>
    cases hdl : (e.user.getD { status := none, expire := none }).data_limit <;>
    intro eff hmem <;> simp at hmem <;>
    (try rcases hmem with hmem | hmem) <;> (try rw [hmem]) <;> rfl

lemma handle_user_updated_no_send (db : DbState) (now : Int) (e : Event)
    (h : e.actor.telegram_id = none) :
    ∀ eff ∈ (handle_user_updated db now e).trace, eff.isSend = false := by
  simp only [handle_user_updated, save_user_snapshot, h]
  cases get_user_snapshot db (e.username.getD "") <;>
    cases hst : (e.user.getD { status := none, expire := none }).status <;>
    intro eff hmem <;> simp at hmem <;>
    (try rcases hmem with hmem | hmem) <;> (try rw [hmem]) <;> rfl

lemma triage_snapshot_congr (dbA dbB : DbState) (now : Int) (e eB : Event)
    (hsnap : dbA.users_snapshot = dbB.users_snapshot)
    (hsync : dbA.sync_status = dbB.sync_status)
    (hact : eB.action = e.action) (hun : eB.username = e.username) (hus : eB.user = e.user) :
    (triage_after_audit dbA now e).db.users_snapshot =
      (triage_after_audit dbB now eB).db.users_snapshot := by
  simp only [triage_after_audit]
  have hg : get_sync_status dbB "initial_sync_complete" =
      get_sync_status dbA "initial_sync_complete" := by
    unfold get_sync_status assocFind
    rw [hsync]
  rw [hg, hact]
  by_cases h1 : get_sync_status dbA "initial_sync_complete" ≠ some "true" ∧
      e.action = some "user_updated"
  · rw [if_pos h1, if_pos h1]
    exact hsnap
  · rw [if_neg h1, if_neg h1]
    by_cases h2 : e.action = some "user_created"
    · rw [if_pos h2, if_pos h2]
      simp only [handle_user_created_snapshot]
      rw [hus, hun, hsnap]
    · rw [if_neg h2, if_neg h2]
      by_cases h3 : e.action = some "user_updated"
      · rw [if_pos h3, if_pos h3]
        simp only [handle_user_updated_snapshot]
        rw [hus, hun, hsnap]
      · rw [if_neg h3, if_neg h3]
        exact hsnap

lemma triage_ok_of_status (db1 : DbState) (now : Int) (e : Event)
    (hstatus : ((e.user.getD { status := none, expire := none }).status).isSome = true)
    (hdl : ((e.user.getD { status := none, expire := none }).data_limit).isSome = true) :
    (triage_after_audit db1 now e).ok = true := by
  simp only [triage_after_audit]
  by_cases h1 : get_sync_status db1 "initial_sync_complete" ≠ some "true" ∧
      e.action = some "user_updated"
  · rw [if_pos h1]
  · rw [if_neg h1]
    by_cases h2 : e.action = some "user_created"
    · rw [if_pos h2]
      show (handle_user_created db1 now e).ok = true
      rw [handle_user_created_ok, hstatus, hdl]
      rfl
    · rw [if_neg h2]
      by_cases h3 : e.action = some "user_updated"
      · rw [if_pos h3]
        show (handle_user_updated db1 now e).ok = true
        rw [handle_user_updated_ok]
        exact hstatus
      · rw [if_neg h3]

lemma triage_no_send (db1 : DbState) (now : Int) (e : Event)
    (h : e.actor.telegram_id = none) :
    ∀ eff ∈ (triage_after_audit db1 now e).trace, eff.isSend = false := by
  simp only [triage_after_audit]
  by_cases h1 : get_sync_status db1 "initial_sync_complete" ≠ some "true" ∧
      e.action = some "user_updated"
  · rw [if_pos h1]
    intro eff hmem
    simp at hmem
    rw [hmem]; rfl
  · rw [if_neg h1]
    by_cases h2 : e.action = some "user_created"
    · rw [if_pos h2]
      intro eff hmem
      simp at hmem
      rcases hmem with hs | hm
      · rw [hs]; rfl
      · exact handle_user_created_no_send db1 now e h eff hm
    · rw [if_neg h2]
      by_cases h3 : e.action = some "user_updated"
      · rw [if_pos h3]
        intro eff hmem
        simp at hmem
        rcases hmem with hs | hm
        · rw [hs]; rfl
        · exact handle_user_updated_no_send db1 now e h eff hm
      · rw [if_neg h3]
        intro eff hmem
        simp at hmem
        rw [hmem]; rfl

/-- Claim C10, counterexample: two valid events (action, username and
non-empty user body all present) whose actor has no telegram id, neither of
which is counted as processed.  The first carries no `status`: the snapshot
write violates the `NOT NULL` constraint on `users_snapshot.status` and the
exception propagates.  The second carries a status but an explicit null
`data_limit`: the snapshot write succeeds, then `create_user_created_message`
raises `TypeError` on its `data_limit > 0` comparison.  In both runs the
batch loop reports the event as not processed — contradicting "the event
still counts as processed". -/
theorem missing_status_not_processed_counterexample :
    validEventB
      { action := some "user_created", username := some "u",
        user := some { status := none, expire := some (DTString.parsed 3) },
        actor := { telegram_id := none, username := none }, send_at := 0 } = true
    ∧ (process_webhook_event initialDb 0
        { action := some "user_created", username := some "u",
          user := some { status := none, expire := some (DTString.parsed 3) },
          actor := { telegram_id := none, username := none }, send_at := 0 }).ok = false
    ∧ (receive_webhook initialDb 0
        [{ action := some "user_created", username := some "u",
           user := some { status := none, expire := some (DTString.parsed 3) },
           actor := { telegram_id := none, username := none }, send_at := 0 }]).2 =
        { processed := 0, total := 1 }
    ∧ validEventB
        { action := some "user_created", username := some "v",
          user := some { status := some "active", expire := none, data_limit := none },
          actor := { telegram_id := none, username := none }, send_at := 0 } = true
    ∧ (process_webhook_event initialDb 0
        { action := some "user_created", username := some "v",
          user := some { status := some "active", expire := none, data_limit := none },
          actor := { telegram_id := none, username := none }, send_at := 0 }).ok = false
    ∧ (receive_webhook initialDb 0
        [{ action := some "user_created", username := some "v",
           user := some { status := some "active", expire := none, data_limit := none },
           actor := { telegram_id := none, username := none }, send_at := 0 }]).2 =
        { processed := 0, total := 1 } := by
  refine ⟨by decide, by decide, by decide, by decide, by decide, by decide⟩

/-- Claim C10, amended: for every valid event whose user body carries a
status and whose data limit is not an explicit null (so the snapshot write
and the message construction both succeed), an actor without a telegram id
gets exactly the snapshot mutation any other event with the same action,
username and user body would get — the `users_snapshot` table afterwards is
identical — while no delivery is attempted (the trace contains no send
effect) and the event returns normally, so it counts as processed. -/
theorem no_telegram_id_behavior_amended (db : DbState) (now : Int) (e eB : Event)
    (hv : validEventB e = true)
    (hstatus : ((e.user.getD { status := none, expire := none }).status).isSome = true)
    (hdl : ((e.user.getD { status := none, expire := none }).data_limit).isSome = true)
    (htid : e.actor.telegram_id = none)
    (hact : eB.action = e.action) (hun : eB.username = e.username) (hus : eB.user = e.user) :
    (process_webhook_event db now e).db.users_snapshot =
      (process_webhook_event db now eB).db.users_snapshot
    ∧ (∀ eff ∈ (process_webhook_event db now e).trace, eff.isSend = false)
    ∧ (process_webhook_event db now e).ok = true := by
  have hvB : validEventB eB = true := by
    unfold validEventB at hv ⊢
    rw [hact, hun, hus]
    exact hv
  refine ⟨?_, ?_, ?_⟩
  · unfold process_webhook_event
    rw [hv, hvB]
    simp only [Bool.not_true, Bool.false_eq_true, if_false]
    show (triage_after_audit
        (log_audit db now "webhook_received" e.username (e.actor.telegram_id.map toString) none)
        now e).db.users_snapshot =
      (triage_after_audit
        (log_audit db now "webhook_received" eB.username (eB.actor.telegram_id.map toString) none)
        now eB).db.users_snapshot
    exact triage_snapshot_congr _ _ now e eB rfl rfl hact hun hus
  · unfold process_webhook_event
    rw [hv]
    simp only [Bool.not_true, Bool.false_eq_true, if_false]
    intro eff hmem
    simp at hmem
    rcases hmem with ha | hm
    · rw [ha]; rfl
    · exact triage_no_send _ now e htid eff hm
  · unfold process_webhook_event
    rw [hv]
    simp only [Bool.not_true, Bool.false_eq_true, if_false]
    show (triage_after_audit
        (log_audit db now "webhook_received" e.username (e.actor.telegram_id.map toString) none)
        now e).ok = true
    exact triage_ok_of_status _ now e hstatus hdl

/-- Claim C10, witness for the amended theorem. -/
theorem no_telegram_id_behavior_amended_witness :
    (process_webhook_event initialDb 4
      { action := some "user_created", username := some "carol",
        user := some { status := some "active", expire := some (DTString.parsed 9) },
        actor := { telegram_id := none, username := some "adm" }, send_at := 2 }).db.users_snapshot =
      (process_webhook_event initialDb 4
        { action := some "user_created", username := some "carol",
          user := some { status := some "active", expire := some (DTString.parsed 9) },
          actor := { telegram_id := some 11, username := some "adm" }, send_at := 2 }).db.users_snapshot
    ∧ (∀ eff ∈ (process_webhook_event initialDb 4
        { action := some "user_created", username := some "carol",
          user := some { status := some "active", expire := some (DTString.parsed 9) },
          actor := { telegram_id := none, username := some "adm" }, send_at := 2 }).trace,
        eff.isSend = false)
    ∧ (process_webhook_event initialDb 4
        { action := some "user_created", username := some "carol",
          user := some { status := some "active", expire := some (DTString.parsed 9) },
          actor := { telegram_id := none, username := some "adm" }, send_at := 2 }).ok = true :=
  no_telegram_id_behavior_amended initialDb 4
    { action := some "user_created", username := some "carol",
      user := some { status := some "active", expire := some (DTString.parsed 9) },
      actor := { telegram_id := none, username := some "adm" }, send_at := 2 }
    { action := some "user_created", username := some "carol",
      user := some { status := some "active", expire := some (DTString.parsed 9) },
      actor := { telegram_id := some 11, username := some "adm" }, send_at := 2 }
    (by decide) (by decide) (by decide) (by decide) (by decide) (by decide) (by decide)

/-!
## Claim C9
-/

def exceptIsError : Except String CallbackParts → Bool
  | Except.error _ => true
  | Except.ok _ => false

lemma breakAtColon_eq_none : ∀ {cs : List Char}, breakAtColon cs = none → ':' ∉ cs := by
  intro cs
  induction cs with
  | nil => intro _; simp
  | cons c cs ih =>
      intro h
      simp only [breakAtColon] at h
      by_cases hc : c = ':'
      · rw [if_pos hc] at h
        cases h
      · rw [if_neg hc] at h
        have h2 : breakAtColon cs = none := by
          cases hb : breakAtColon cs with
          | none => rfl
          | some p => rw [hb] at h; cases h
        intro hmem
        rcases List.mem_cons.mp hmem with h3 | h3
        · exact hc h3.symm
        · exact ih h2 h3

lemma breakAtColon_eq_some : ∀ {cs b a : List Char}, breakAtColon cs = some (b, a) →
    cs = b ++ ':' :: a ∧ ':' ∉ b := by
  intro cs
  induction cs with
  | nil => intro b a h; cases h
  | cons c cs ih =>
      intro b a h
      simp only [breakAtColon] at h
      by_cases hc : c = ':'
      · rw [if_pos hc] at h
        injection h with h1
        injection h1 with hb ha
        subst hb
        subst ha
        rw [hc]
        exact ⟨rfl, by simp⟩
      · rw [if_neg hc] at h
        cases hbr : breakAtColon cs with
        | none => rw [hbr] at h; cases h
        | some p =>
            rw [hbr] at h
            simp only [Option.map_some', Option.some.injEq] at h
            injection h with hb ha
            obtain ⟨hcs, hnb⟩ := ih (b := p.1) (a := p.2) hbr
            subst hb
            subst ha
            constructor
            · rw [hcs]
              rfl
            · intro hmem
              rcases List.mem_cons.mp hmem with h3 | h3
              · exact hc h3.symm
              · exact hnb h3

lemma breakAtColon_append : ∀ (b : List Char), ':' ∉ b → ∀ rest : List Char,
    breakAtColon (b ++ ':' :: rest) = some (b, rest) := by
  intro b
  induction b with
  | nil => intro _ rest; simp [breakAtColon]
  | cons c b ih =>
      intro hnb rest
      have hc : ¬(c = ':') := by
        intro h
        exact hnb (by rw [h]; exact List.mem_cons_self _ _)
      simp only [List.cons_append, breakAtColon]
      rw [if_neg hc, List.append_eq, ih (fun h => hnb (List.mem_cons_of_mem _ h)) rest]
      rfl

lemma pySplitColon_step (b rest : List Char) (hb : ':' ∉ b) (n : Nat) :
    pySplitColon (b ++ ':' :: rest) (n + 1) = String.mk b :: pySplitColon rest n := by
  simp only [pySplitColon]
  rw [breakAtColon_append b hb rest]

lemma pySplitColon_length : ∀ (n : Nat) (cs : List Char),
    (pySplitColon cs n).length = min (cs.count ':') n + 1 := by
  intro n
  induction n with
  | zero => intro cs; simp [pySplitColon]
  | succ n ih =>
      intro cs
      simp only [pySplitColon]
      cases hb : breakAtColon cs with
      | none =>
          have h0 : cs.count ':' = 0 := List.count_eq_zero.mpr (breakAtColon_eq_none hb)
          simp [h0]
      | some p =>
          obtain ⟨hcs, hnb⟩ := breakAtColon_eq_some (b := p.1) (a := p.2) hb
          simp only [List.length_cons, ih]
          have hcount : cs.count ':' = p.2.count ':' + 1 := by
            rw [hcs, List.count_append, List.count_cons, List.count_eq_zero.mpr hnb]
            simp
          rw [hcount]
          omega

/-- Claim C9, counterexample: the string `a:b:c:d:e` consists of five
colon-delimited fields, yet the decoder accepts it — `split(chr, 3)` caps the
split at three cuts, folding the extra colon into the fourth field — so the
claim that any field count other than four is rejected fails. -/
theorem parse_callback_five_fields_counterexample :
    ("a:b:c:d:e".data.count ':') + 1 = 5
    ∧ parse_callback_data "a:b:c:d:e" =
        Except.ok { action_type := "a", username := "b", admin_telegram_id := "c",
                    event_key := "d:e" } :=
  ⟨by decide, rfl⟩

/-- Claim C9, amended: the decoder rejects a token exactly when it has fewer
than four colon-delimited fields (fewer than three colons); a token whose
first three fields are colon-free decodes to those fields with everything
after the third colon — further colons included — as the idempotency-key
field, so tokens with more than four fields are accepted rather than
rejected. -/
theorem parse_callback_fields_amended (s : String) :
    (exceptIsError (parse_callback_data s) = true ↔ s.data.count ':' < 3)
    ∧ (∀ a b c d : String, ':' ∉ a.data → ':' ∉ b.data → ':' ∉ c.data →
        parse_callback_data (a ++ ":" ++ b ++ ":" ++ c ++ ":" ++ d) =
          Except.ok { action_type := a, username := b, admin_telegram_id := c,
                      event_key := d }) := by
  constructor
  · have hlen := pySplitColon_length 3 s.data
    unfold parse_callback_data
    rcases hsp : pySplitColon s.data 3 with _ | ⟨a, _ | ⟨b, _ | ⟨c, _ | ⟨d, _ | ⟨e2, rest⟩⟩⟩⟩⟩ <;>
      rw [hsp] at hlen <;> simp only [List.length_cons, List.length_nil] at hlen <;>
      simp [exceptIsError] <;> omega
  · intro a b c d ha hb hc
    have h1 : (a ++ ":" ++ b ++ ":" ++ c ++ ":" ++ d).data =
        a.data ++ ':' :: (b.data ++ ':' :: (c.data ++ ':' :: d.data)) := by
      simp [String.data_append]
    unfold parse_callback_data
    rw [h1, pySplitColon_step a.data _ ha, pySplitColon_step b.data _ hb,
      pySplitColon_step c.data _ hc]
    rfl

/-- Claim C9, witness for the amended theorem. -/
theorem parse_callback_fields_amended_witness :
    (exceptIsError (parse_callback_data "x") = true ↔ ("x".data.count ':') < 3)
    ∧ parse_callback_data ("paid" ++ ":" ++ "alice" ++ ":" ++ "42" ++ ":" ++ "k1") =
        Except.ok { action_type := "paid", username := "alice", admin_telegram_id := "42",
                    event_key := "k1" } :=
  ⟨(parse_callback_fields_amended "x").1,
   (parse_callback_fields_amended "x").2 "paid" "alice" "42" "k1"
     (by decide) (by decide) (by decide)⟩

/-!
## Claim C6
-/

lemma add_preserves_atMostOne (db : DbState) (now : Int) (u a : String) (p : Option String)
    (bb : String) (h : atMostOneActive db.settlement_list) :
    atMostOneActive (add_to_settlement db now u a p bb).settlement_list := by
  intro u' a'
  unfold add_to_settlement
  cases hf : db.settlement_list.find? (activeRowB u a) with
  | some existing =>
      simp only [List.countP_map]
      have hcongr : ∀ r ∈ db.settlement_list,
          ((activeRowB u' a' ∘ (fun r => if r.id = existing.id then
            { r with price := p, added_by := bb, added_at := now } else r)) r = true ↔
          activeRowB u' a' r = true) := by
        intro r _
        by_cases hid : r.id = existing.id
        · simp [hid, activeRowB, Function.comp]
        · simp [hid, Function.comp]
      rw [List.countP_congr hcongr]
      exact h u' a'
  | none =>
      simp only [List.countP_append]
      have hall : ∀ r ∈ db.settlement_list, activeRowB u a r = false := by
        intro r hr
        have := List.find?_eq_none.mp hf r hr
        exact Bool.not_eq_true _ ▸ (by simpa using this)
      by_cases hpair : u' = u ∧ a' = a
      · obtain ⟨hu, ha⟩ := hpair
        subst hu
        subst ha
        have hzero : db.settlement_list.countP (activeRowB u' a') = 0 := by
          rw [List.countP_eq_zero]
          intro r hr
          rw [hall r hr]
          exact Bool.false_ne_true
        rw [hzero]
        simp [activeRowB]
      · have : (List.countP (activeRowB u' a')
            [{ id := db.settlement_next_id, username := u, admin_telegram_id := a, price := p,
               added_by := bb, added_at := now, is_checked_out := false, checked_out_at := none,
               checked_out_by := none }]) = 0 := by
          rw [List.countP_eq_zero]
          intro r hr
          simp only [List.mem_singleton] at hr
          subst hr
          simp only [activeRowB]
          intro hcontra
          simp only [Bool.and_eq_true, beq_iff_eq] at hcontra
          exact hpair ⟨hcontra.1.1.symm, hcontra.1.2.symm⟩
        rw [this]
        have := h u' a'
        omega

lemma checkout_preserves_atMostOne (db : DbState) (now : Int) (a x : String)
    (h : atMostOneActive db.settlement_list) :
    atMostOneActive (checkout_settlement db now a x).1.settlement_list := by
  intro u' a'
  unfold checkout_settlement
  simp only [List.countP_map]
  refine le_trans (List.countP_mono_left ?_) (h u' a')
  intro r _ hpred
  simp only [Function.comp] at hpred
  by_cases hcond : r.admin_telegram_id == a && r.is_checked_out == false
  · rw [if_pos hcond] at hpred
    simp [activeRowB] at hpred
  · rw [if_neg hcond] at hpred
    exact hpred

lemma applySettlementOps_preserves : ∀ (ops : List SettlementOp) (db : DbState),
    atMostOneActive db.settlement_list →
    atMostOneActive (applySettlementOps db ops).settlement_list := by
  intro ops
  induction ops with
  | nil => intro db h; exact h
  | cons op ops ih =>
      intro db h
      show atMostOneActive (applySettlementOps (applySettlementOp db op) ops).settlement_list
      apply ih
      cases op with
      | add u a p bb t => exact add_preserves_atMostOne db t u a p bb h
      | checkout a bb t => exact checkout_preserves_atMostOne db t a bb h

/-- Claim C6: the settlement store maintains at most one active entry per
(username, adminId) pair under every sequence of add/checkout operations from
the initial store; an add while an active entry exists updates that row's
price/addedBy/addedAt in place without changing the row count; an add with no
active entry appends a fresh active row; and after a checkout no active entry
remains for the admin, so the next add for the pair inserts a new row. -/
theorem settlement_active_invariant :
    (∀ ops : List SettlementOp, atMostOneActive (applySettlementOps initialDb ops).settlement_list)
    ∧ (∀ (db : DbState) (now : Int) (u a : String) (p : Option String) (bb : String),
        (db.settlement_list.find? (activeRowB u a)).isSome = true →
        (add_to_settlement db now u a p bb).settlement_list.length =
          db.settlement_list.length
        ∧ ∃ r ∈ (add_to_settlement db now u a p bb).settlement_list,
            activeRowB u a r = true ∧ r.price = p ∧ r.added_by = bb ∧ r.added_at = now)
    ∧ (∀ (db : DbState) (now : Int) (u a : String) (p : Option String) (bb : String),
        (db.settlement_list.find? (activeRowB u a)).isSome = false →
        (add_to_settlement db now u a p bb).settlement_list =
          db.settlement_list ++
            [{ id := db.settlement_next_id, username := u, admin_telegram_id := a, price := p,
               added_by := bb, added_at := now, is_checked_out := false, checked_out_at := none,
               checked_out_by := none }])
    ∧ (∀ (db : DbState) (now : Int) (a x u : String),
        (((checkout_settlement db now a x).1.settlement_list.find? (activeRowB u a)).isSome
          = false)) := by
  refine ⟨?_, ?_, ?_, ?_⟩
  · intro ops
    apply applySettlementOps_preserves ops initialDb
    intro u a
    simp [initialDb]
  · intro db now u a p bb hsome
    rw [Option.isSome_iff_exists] at hsome
    obtain ⟨existing, hf⟩ := hsome
    have hmem : existing ∈ db.settlement_list := List.mem_of_find?_eq_some hf
    have hpred : activeRowB u a existing = true := List.find?_some hf
    unfold add_to_settlement
    rw [hf]
    constructor
    · simp [List.length_map]
    · refine ⟨{ existing with price := p, added_by := bb, added_at := now }, ?_, ?_, rfl, rfl, rfl⟩
      · apply List.mem_map.mpr
        exact ⟨existing, hmem, by rw [if_pos rfl]⟩
      · simpa [activeRowB] using hpred
  · intro db now u a p bb hnone
    rw [Bool.eq_false_iff, Ne, Option.isSome_iff_exists] at hnone
    have hf : db.settlement_list.find? (activeRowB u a) = none := by
      cases hc : db.settlement_list.find? (activeRowB u a) with
      | none => rfl
      | some v => exact absurd ⟨v, hc⟩ hnone
    unfold add_to_settlement
    rw [hf]
  · intro db now a x u
    rw [Bool.eq_false_iff, Ne, Option.isSome_iff_exists]
    rintro ⟨r, hr⟩
    have hmem : r ∈ (checkout_settlement db now a x).1.settlement_list :=
      List.mem_of_find?_eq_some hr
    have hpred : activeRowB u a r = true := List.find?_some hr
    unfold checkout_settlement at hmem
    simp only [List.mem_map] at hmem
    obtain ⟨r0, _, hr0⟩ := hmem
    by_cases hcond : r0.admin_telegram_id == a && r0.is_checked_out == false
    · rw [if_pos hcond] at hr0
      rw [← hr0] at hpred
      simp [activeRowB] at hpred
    · rw [if_neg hcond] at hr0
      rw [← hr0] at hpred
      simp only [activeRowB, Bool.and_eq_true, beq_iff_eq] at hpred
      apply hcond
      rw [hpred.1.2]
      simp [hpred.2]

/-- Claim C6, witness for the invariant theorem's hypothesised conjuncts. -/
theorem settlement_active_invariant_witness :
    atMostOneActive (applySettlementOps initialDb
      [SettlementOp.add "u" "9" none "adm" 1, SettlementOp.add "u" "9" (some "5") "adm2" 2,
       SettlementOp.checkout "9" "adm" 3, SettlementOp.add "u" "9" none "adm" 4]).settlement_list
    ∧ (add_to_settlement (add_to_settlement initialDb 1 "u" "9" none "adm") 2 "u" "9"
        (some "5") "x").settlement_list.length =
        (add_to_settlement initialDb 1 "u" "9" none "adm").settlement_list.length
    ∧ (add_to_settlement initialDb 4 "v" "9" none "y").settlement_list =
        initialDb.settlement_list ++
          [{ id := initialDb.settlement_next_id, username := "v", admin_telegram_id := "9",
             price := none, added_by := "y", added_at := 4, is_checked_out := false,
             checked_out_at := none, checked_out_by := none }]
    ∧ ((((checkout_settlement (add_to_settlement initialDb 1 "u" "9" none "adm")
        5 "9" "z").1).settlement_list.find? (activeRowB "u" "9")).isSome = false) :=
  ⟨settlement_active_invariant.1
     [SettlementOp.add "u" "9" none "adm" 1, SettlementOp.add "u" "9" (some "5") "adm2" 2,
      SettlementOp.checkout "9" "adm" 3, SettlementOp.add "u" "9" none "adm" 4],
   (settlement_active_invariant.2.1 (add_to_settlement initialDb 1 "u" "9" none "adm") 2
     "u" "9" (some "5") "x" (by decide)).1,
   settlement_active_invariant.2.2.1 initialDb 4 "v" "9" none "y" (by decide),
   settlement_active_invariant.2.2.2 (add_to_settlement initialDb 1 "u" "9" none "adm")
     5 "9" "z" "u"⟩

/-!
## Claim C8
-/

/-- The active settlement rows of one admin (the WHERE clause of the
settlement-total query). -/
def activeEntriesFor (db : DbState) (admin_telegram_id : String) : List SettlementRow :=
  db.settlement_list.filter
    (fun r => r.admin_telegram_id == admin_telegram_id && r.is_checked_out == false)

/-- What one price string contributes to the running total: its parsed value
when positive, zero otherwise. -/
def stringContribution (priceStr : String) : Int :=
  match stringPriceParse priceStr with
  | some v => if v > 0 then v else 0
  | none => 0

/-- Whether one price string counts as priced: it parses and is positive. -/
def stringHasPrice (priceStr : String) : Bool :=
  match stringPriceParse priceStr with
  | some v => decide (v > 0)
  | none => false

/-- What one settlement row contributes to the total, after the UserPrice
fallback. -/
def priceContribution (db : DbState) (r : SettlementRow) : Int :=
  stringContribution (coalescedPrice db r)

/-- An entry counts as "without price" when its effective price (after the
fallback) is missing, non-numeric, or non-positive. -/
def lacksPriceB (db : DbState) (r : SettlementRow) : Bool :=
  !(stringHasPrice (coalescedPrice db r))

lemma countP_not_add (p : α → Bool) (l : List α) :
    l.countP p + l.countP (fun a => !(p a)) = l.length := by
  induction l with
  | nil => simp
  | cons x l ih =>
      simp only [List.countP_cons, List.length_cons]
      cases hx : p x <;> simp [hx] <;> omega

lemma settlementStep_foldl : ∀ (prices : List String) (acc : SettlementTotals),
    (prices.foldl settlementStep acc).total = acc.total + (prices.map stringContribution).sum
    ∧ (prices.foldl settlementStep acc).count = acc.count
    ∧ (prices.foldl settlementStep acc).items_with_price =
        acc.items_with_price + prices.countP stringHasPrice
    ∧ (prices.foldl settlementStep acc).items_without_price =
        acc.items_without_price + prices.countP (fun s => !(stringHasPrice s)) := by
  intro prices
  induction prices with
  | nil => intro acc; simp
  | cons s prices ih =>
      intro acc
      obtain ⟨h1, h2, h3, h4⟩ := ih (settlementStep acc s)
      simp only [List.foldl_cons, List.map_cons, List.sum_cons, List.countP_cons]
      refine ⟨?_, ?_, ?_, ?_⟩
      · rw [h1]
        unfold settlementStep stringContribution
        cases hp : stringPriceParse s with
        | none => simp
        | some v =>
            by_cases hv : v > 0
            · simp [hv]
              omega
            · simp [hv]
      · rw [h2]
        unfold settlementStep
        cases hp : stringPriceParse s with
        | none => rfl
        | some v =>
            by_cases hv : v > 0
            · simp [hv]
            · simp [hv]
      · rw [h3]
        unfold settlementStep stringHasPrice
        cases hp : stringPriceParse s with
        | none => simp
        | some v =>
            by_cases hv : v > 0
            · simp [hv]
              omega
            · simp [hv]
      · rw [h4]
        unfold settlementStep stringHasPrice
        cases hp : stringPriceParse s with
        | none =>
            simp
            omega
        | some v =>
            by_cases hv : v > 0
            · simp [hv]
            · simp [hv]
              omega

/-- Claim C8: `get_settlement_total` sums over the admin's active entries
only; each entry contributes its coalesced price (row price, else the stored
UserPrice, else "0") exactly when that price parses to a positive integer and
zero otherwise; entries whose effective price is missing, non-numeric or
non-positive are the `items_without_price`; `count` is the number of active
entries; and priced plus unpriced entries exhaust the count. -/
theorem settlement_total_characterization (db : DbState) (admin_telegram_id : String) :
    (get_settlement_total db admin_telegram_id).count =
      (activeEntriesFor db admin_telegram_id).length
    ∧ (get_settlement_total db admin_telegram_id).total =
        ((activeEntriesFor db admin_telegram_id).map (priceContribution db)).sum
    ∧ (get_settlement_total db admin_telegram_id).items_without_price =
        (activeEntriesFor db admin_telegram_id).countP (lacksPriceB db)
    ∧ (get_settlement_total db admin_telegram_id).items_with_price +
        (get_settlement_total db admin_telegram_id).items_without_price =
        (get_settlement_total db admin_telegram_id).count := by
  obtain ⟨h1, h2, h3, h4⟩ := settlementStep_foldl
    ((activeEntriesFor db admin_telegram_id).map (coalescedPrice db))
    { total := 0, count := (activeEntriesFor db admin_telegram_id).length,
      items_with_price := 0, items_without_price := 0 }
  have hdef : get_settlement_total db admin_telegram_id =
      ((activeEntriesFor db admin_telegram_id).map (coalescedPrice db)).foldl settlementStep
        { total := 0, count := (activeEntriesFor db admin_telegram_id).length,
          items_with_price := 0, items_without_price := 0 } := rfl
  refine ⟨?_, ?_, ?_, ?_⟩
  · rw [hdef, h2]
  · rw [hdef, h1, List.map_map]
    simp only [Int.zero_add]
    have hfun : (stringContribution ∘ coalescedPrice db) = priceContribution db := by
      funext r
      rfl
    rw [hfun]
  · rw [hdef, h4, List.countP_map]
    simp only [Nat.zero_add]
    have hfun : ((fun s => !(stringHasPrice s)) ∘ coalescedPrice db) = lacksPriceB db := by
      funext r
      rfl
    rw [hfun]
  · rw [hdef, h3, h4, h2]
    dsimp only
    rw [List.countP_map, List.countP_map, Nat.zero_add, Nat.zero_add]
    have hfun2 : ((fun s => !(stringHasPrice s)) ∘ coalescedPrice db) =
        (fun r => !((stringHasPrice ∘ coalescedPrice db) r)) := by
      funext r
      rfl
    rw [hfun2]
    exact countP_not_add (stringHasPrice ∘ coalescedPrice db)
      (activeEntriesFor db admin_telegram_id)

end AccountingBot
